import Mathlib

/-!
Shallow embedding of `src/main.py` (a Twitter batch downloader) and proofs
about its pagination engine, handle resolver and batch driver.

Modelling conventions:
* The network is an environment parameter: `responses : Nat → Page` gives the
  parsed response to the n-th listing request (0-indexed), and
  `respond : String → LookupResponse` gives the response of the user-lookup
  endpoint for a given username.  `ACCOUNT_ID` and `BEARER_TOKEN` only shape
  the URL and headers, which the environment already abstracts, so they are
  omitted; `verbose` only controls printing and is omitted as well.
* Records (tweet objects) are opaque; `pd.json_normalize` maps each record to
  exactly one row of the data frame, preserving order, so rows are modelled by
  the records themselves.
* Machine-level effects tracked: the number of HTTP requests issued and the
  file operations performed.
-/

/-- A record (one tweet object) of a page's record list; opaque. -/
abbrev Record := Nat

/-- One parsed response of the listing endpoint `GET /2/users/:id/tweets` as
consumed by `get_most_recent_tweets_account` (src/main.py lines 160-208): the
HTTP status code, `page['meta']['result_count']`, the optional record list
`page['data']`, and the optional token `page['meta']['next_token']`. -/
structure Page where
  status : Nat
  result_count : Nat
  data : Option (List Record)
  next_token : Option String
deriving DecidableEq, Repr

/-- The `PARAMS` dictionary passed to `get_most_recent_tweets_account`.
`pagination_token` models the optional `'pagination_token'` entry;
`max_results` models `int(PARAMS['max_results'])` when the `'max_results'`
entry is present (`none` when absent); `fields` models all remaining
field-selection entries, which the function never touches. -/
structure QueryParams where
  pagination_token : Option String
  max_results : Option Int
  fields : List (String × String)
deriving DecidableEq, Repr

/-- An abnormal outcome of `get_most_recent_tweets_account`.  The three
`raise ApiError(...)` sites of the source are src/main.py lines 146-148
(pre-set pagination token), 150-152 (missing or non-100 `max_results`) and
167-170 (non-200 status); in Python each of these actually fails at the
undefined name `ApiError` (see `resolveRaise` below), but the branch taken is
still the one recorded here.  `unboundLocalDf` records the
`UnboundLocalError` reached when the first page has no `'data'` key and the
local `df` is used (lines 222 and 224) without ever being assigned. -/
inductive FetchError where
  | configPaginationToken
  | configMaxResults
  | httpError (seq : Nat) (status : Nat)
  | unboundLocalDf
deriving DecidableEq, Repr

/-- A file-system effect of `get_most_recent_tweets_account`:
`touchEmpty` models `open(path, 'a').close()` (src/main.py line 183) and
`writeCsv` models `df.to_csv(fn, index=False)` (line 222). -/
inductive FileOp where
  | touchEmpty (path : String)
  | writeCsv (path : String) (rows : List Record)
deriving DecidableEq, Repr

/-- The observable outcome of one call to `get_most_recent_tweets_account`:
the returned data frame (as its ordered list of rows) or the error raised,
the state of the caller's `PARAMS` dictionary after the call (it is mutated
in place), the number of HTTP requests issued, and the file operations
performed. -/
structure FetchResult where
  result : Except FetchError (List Record)
  params : QueryParams
  requests : Nat
  files : List FileOp
deriving Repr

/-- The code run after the `while` loop exits (src/main.py lines 214-224):
optionally write `df` to `data/{file_reference}_{timestamp}.csv` and return
`df`.  When no iteration ever assigned `df` (modelled by `df = none`), both
`df.to_csv(fn)` and `return df` hit an unassigned local, raising
`UnboundLocalError`. -/
def finishFetch (save_file : Bool) (file_reference : String) (timestamp : String)
    (params : QueryParams) (df : Option (List Record)) (issued : Nat) : FetchResult :=
  match df with
  | none =>
      { result := .error .unboundLocalDf, params := params, requests := issued, files := [] }
  | some rows =>
      { result := .ok rows, params := params, requests := issued,
        files := if save_file then
            [FileOp.writeCsv ("data/" ++ file_reference ++ "_" ++ timestamp ++ ".csv") rows]
          else [] }

/-- The pagination loop `while (request_count < 32)` of src/main.py lines
160-212.  `fuel` is the number of loop-guard checks remaining, i.e.
`32 - request_count`; `df = none` models the local `df` not yet being
assigned, which holds exactly when `request_count == 0` (the source branches
on `request_count == 0` at line 193 to initialize versus append).  The number
of requests issued so far always equals `request_count` on entry to an
iteration, so `requests` is reported from it. -/
def fetchLoop (responses : Nat → Page) (save_file : Bool) (file_reference : String)
    (timestamp : String) :
    Nat → QueryParams → Option (List Record) → Nat → FetchResult
  | request_count, params, df, 0 =>
      finishFetch save_file file_reference timestamp params df request_count
  | request_count, params, df, fuel + 1 =>
      let page := responses request_count
      if page.status ≠ 200 then
        { result := .error (.httpError (request_count + 1) page.status),
          params := params, requests := request_count + 1, files := [] }
      else if page.result_count = 0 ∧ request_count = 0 then
        { result := .ok [], params := params, requests := request_count + 1,
          files := if save_file then
              [FileOp.touchEmpty ("data/" ++ file_reference ++ "_2021_empty.csv")]
            else [] }
      else
        match page.data with
        | none => finishFetch save_file file_reference timestamp params df (request_count + 1)
        | some records =>
          let rows := match df with
            | none => records
            | some old => old ++ records
          match page.next_token with
          | none =>
              finishFetch save_file file_reference timestamp params (some rows)
                (request_count + 1)
          | some tok =>
              fetchLoop responses save_file file_reference timestamp
                (request_count + 1) { params with pagination_token := some tok }
                (some rows) fuel

/-- Embedding of `get_most_recent_tweets_account` (src/main.py lines 93-224):
validate `PARAMS` (lines 146-152), then run the pagination loop with
`request_count = 0` and 32 guard checks remaining. -/
def get_most_recent_tweets_account (responses : Nat → Page) (PARAMS : QueryParams)
    (save_file : Bool) (file_reference : String) (timestamp : String) : FetchResult :=
  if PARAMS.pagination_token.isSome then
    { result := .error .configPaginationToken, params := PARAMS, requests := 0, files := [] }
  else if PARAMS.max_results ≠ some 100 then
    { result := .error .configMaxResults, params := PARAMS, requests := 0, files := [] }
  else
    fetchLoop responses save_file file_reference timestamp 0 PARAMS none 32

/-- Rows of the record lists of pages `rc, rc+1, ..., rc+j-1` concatenated in
page order then within-page order, where `d i` is the record list of the page
answering request `i`. -/
def pageSegment (d : Nat → List Record) : Nat → Nat → List Record
  | _, 0 => []
  | rc, j + 1 => d rc ++ pageSegment d (rc + 1) j

/-- The response of the user-lookup endpoint `GET /2/users/by?usernames=...`
for a given username: HTTP status and the account id in the body
(`page['data'][0]['id']`, src/main.py line 89). -/
structure LookupResponse where
  status : Nat
  id : String

/-- An abnormal outcome of `look_up_twitter_acount_id`.  `indexError` is the
`IndexError` raised by `user_name[0]` on the empty string (src/main.py
line 69); `malformedName` is the branch `raise ApiError(...)` of line 75
(in Python this fails at the undefined name `ApiError`, see `resolveRaise`);
`lookupHttpError` is the branch of lines 83-85 for a non-200 status. -/
inductive LookupError where
  | indexError
  | malformedName
  | lookupHttpError (status : Nat)
deriving DecidableEq, Repr

/-- The character class of Python's `\w` (and of the redundant `\d` and `_`)
in the validation pattern `"^[\w\d_]*$"` of src/main.py line 74, restricted
to ASCII: letters, digits and underscore. -/
def isWordChar (c : Char) : Bool :=
  c.isAlphanum || c = '_'

/-- The test `re.match("^[\w\d_]*$", user_name)` of src/main.py line 74: the
anchored pattern matches exactly when every character is a word character;
in particular zero characters (the empty string) match. -/
def validUserName (s : String) : Bool :=
  s.data.all isWordChar

/-- The part of `look_up_twitter_acount_id` after the `'@'` stripping
(src/main.py lines 72-91), applied to the stripped username: validate it
(line 74), issue the lookup request and return the account id of the
response, or fail on a non-200 status. -/
def look_up_core (respond : String → LookupResponse) (uname : String) :
    Except LookupError String :=
  if validUserName uname then
    if (respond uname).status ≠ 200 then .error (.lookupHttpError (respond uname).status)
    else .ok (respond uname).id
  else .error .malformedName

/-- Embedding of `look_up_twitter_acount_id` (src/main.py lines 34-91): strip
a leading `'@'` (line 69; `user_name[0]` raises `IndexError` on the empty
string), then proceed as `look_up_core` on the stripped name. -/
def look_up_twitter_acount_id (respond : String → LookupResponse)
    (user_name : String) : Except LookupError String :=
  match user_name.data with
  | [] => .error .indexError
  | c :: rest =>
    look_up_core respond (if c = '@' then String.mk rest else user_name)

/-- Worker for `pySplit`: walk the character list left to right, cutting at
each (non-overlapping, leftmost-first) occurrence of the separator, exactly
as Python's `str.split(sep)` with a non-empty separator does.  `fuel` is an
upper bound on the remaining walk (the list length suffices), making the
recursion structural. -/
def pySplitAux (sep : List Char) : Nat → List Char → List Char → List (List Char)
  | 0, l, acc => [acc.reverse ++ l]
  | fuel + 1, l, acc =>
    match l with
    | [] => [acc.reverse]
    | c :: rest =>
      if sep.isPrefixOf (c :: rest) then
        acc.reverse :: pySplitAux sep fuel (List.drop sep.length (c :: rest)) []
      else
        pySplitAux sep fuel rest (c :: acc)

/-- Python's `s.split(sep)` for a non-empty separator: the list of chunks of
`s` between non-overlapping occurrences of `sep`. -/
def pySplit (sep : String) (s : String) : List String :=
  (pySplitAux sep.data s.data.length s.data []).map String.mk

/-- The characters kept by `extract_username_from_url` (src/main.py
line 311). -/
def PERMITTED_CHARS : String :=
  "0123456789abcdefghijklmnopqrstuvwxyzABCDEFGHIJKLMNOPQRSTUVWXYZ_"

/-- Embedding of `extract_username_from_url` (src/main.py lines 305-313):
take everything after the last `'twitter.com/'` (`split('twitter.com/')[-1]`),
then everything before the first `'/'` (`split('/')[0]`), then keep only
permitted characters. -/
def extract_username_from_url (text : String) : String :=
  let t1 := (pySplit "twitter.com/" text).getLastD ""
  let t2 := ((pySplit "/" t1).headD "")
  String.mk (t2.data.filter (fun c => PERMITTED_CHARS.data.contains c))

/-- Python's `pandas.unique` on a list of strings: the distinct values in
order of first occurrence (src/main.py line 317). -/
def pdUnique (l : List String) : List String :=
  match l with
  | [] => []
  | x :: xs => x :: pdUnique (xs.filter (fun y => y ≠ x))
termination_by l.length
decreasing_by
  simp only [List.length_cons]
  exact Nat.lt_succ_of_le (List.length_filter_le _ _)

/-- The reference portion the batch driver extracts from one globbed output
file path: `f.split('/')[1].split('_2021')[0]` (src/main.py line 318). -/
def referenceOf (f : String) : String :=
  (pySplit "_2021" ((pySplit "/" f).getD 1 "")).headD ""

/-- The `downloaded_usernames` list of the batch driver (src/main.py
line 318), from the list of file paths returned by `glob.glob('data/*.csv')`. -/
def downloadedUsernames (files : List String) : List String :=
  files.map referenceOf

/-- The `ALL_USERNAMES` list the batch driver ends up iterating over
(src/main.py lines 316-319): usernames extracted from the link column,
deduplicated preserving first occurrence, minus those already downloaded and
minus the empty string. -/
def batchUsernames (links : List String) (files : List String) : List String :=
  let all := pdUnique (links.map extract_username_from_url)
  let downloaded := downloadedUsernames files
  all.filter (fun u => decide (u ∉ downloaded ∧ u ≠ ""))

/-- One `raise` statement of src/main.py: the enclosing function, the line of
the `raise` keyword, and the name the raised expression begins with. -/
structure RaiseSite where
  pyFunction : String
  line : Nat
  exceptionName : String
deriving DecidableEq, Repr

/-- Every `raise` statement in src/main.py. -/
def raiseSites : List RaiseSite :=
  [⟨"look_up_twitter_acount_id", 75, "ApiError"⟩,
   ⟨"look_up_twitter_acount_id", 84, "ApiError"⟩,
   ⟨"get_most_recent_tweets_account", 147, "ApiError"⟩,
   ⟨"get_most_recent_tweets_account", 151, "ApiError"⟩,
   ⟨"get_most_recent_tweets_account", 168, "ApiError"⟩]

/-- Every name bound at module level in src/main.py: the seven imports
(lines 1-7) and the five function definitions. -/
def moduleTopLevelNames : List String :=
  ["requests", "time", "glob", "re", "json", "datetime", "pd",
   "read_bearer_token", "look_up_twitter_acount_id",
   "get_most_recent_tweets_account", "download_and_save_account_tweets",
   "extract_username_from_url"]

/-- Python built-in names a bare name in src/main.py could resolve to
(the built-in exception classes and the built-in functions the file uses). -/
def pythonBuiltinNames : List String :=
  ["BaseException", "Exception", "ArithmeticError", "AssertionError",
   "AttributeError", "EOFError", "FileNotFoundError", "ImportError",
   "IndexError", "KeyError", "LookupError", "MemoryError", "NameError",
   "NotImplementedError", "OSError", "OverflowError", "RecursionError",
   "ReferenceError", "RuntimeError", "StopIteration", "SyntaxError",
   "SystemError", "TypeError", "UnboundLocalError", "ValueError",
   "ZeroDivisionError", "open", "print", "int", "str", "list", "map",
   "len", "help"]

/-- The outcome of executing `raise Name(...)` in src/main.py: if `Name`
resolves (module level or built-in) the named exception is raised; otherwise
evaluating the expression itself raises `NameError`, a name-resolution
failure. -/
inductive RaiseOutcome where
  | raisesDefined (name : String)
  | nameResolutionFailure
deriving DecidableEq, Repr

/-- Name resolution for the expression of a `raise` statement in
src/main.py. -/
def resolveRaise (name : String) : RaiseOutcome :=
  if name ∈ moduleTopLevelNames ∨ name ∈ pythonBuiltinNames then
    .raisesDefined name
  else
    .nameResolutionFailure

/-! ### Helper lemmas about the pagination loop -/

theorem finishFetch_none (sf : Bool) (ref ts : String) (params : QueryParams) (n : Nat) :
    finishFetch sf ref ts params none n =
      { result := .error .unboundLocalDf, params := params, requests := n, files := [] } := rfl

theorem finishFetch_some (sf : Bool) (ref ts : String) (params : QueryParams)
    (rows : List Record) (n : Nat) :
    finishFetch sf ref ts params (some rows) n =
      { result := .ok rows, params := params, requests := n,
        files := if sf then
            [FileOp.writeCsv ("data/" ++ ref ++ "_" ++ ts ++ ".csv") rows]
          else [] } := rfl

theorem fetchLoop_step_http (resp : Nat → Page) (sf : Bool) (ref ts : String)
    (rc : Nat) (params : QueryParams) (df : Option (List Record)) (fuel : Nat)
    (h : (resp rc).status ≠ 200) :
    fetchLoop resp sf ref ts rc params df (fuel + 1) =
      { result := .error (.httpError (rc + 1) (resp rc).status),
        params := params, requests := rc + 1, files := [] } := by
  simp only [fetchLoop]
  rw [if_pos h]

theorem fetchLoop_step_emptyFirst (resp : Nat → Page) (sf : Bool) (ref ts : String)
    (params : QueryParams) (df : Option (List Record)) (fuel : Nat)
    (h200 : (resp 0).status = 200) (h0 : (resp 0).result_count = 0) :
    fetchLoop resp sf ref ts 0 params df (fuel + 1) =
      { result := .ok [], params := params, requests := 1,
        files := if sf then
            [FileOp.touchEmpty ("data/" ++ ref ++ "_2021_empty.csv")]
          else [] } := by
  simp only [fetchLoop]
  rw [if_neg (by simp [h200]), if_pos ⟨h0, trivial⟩]

theorem fetchLoop_step_nodata (resp : Nat → Page) (sf : Bool) (ref ts : String)
    (rc : Nat) (params : QueryParams) (df : Option (List Record)) (fuel : Nat)
    (h200 : (resp rc).status = 200) (hrc : rc = 0 → (resp 0).result_count ≠ 0)
    (hdata : (resp rc).data = none) :
    fetchLoop resp sf ref ts rc params df (fuel + 1) =
      finishFetch sf ref ts params df (rc + 1) := by
  have hcond : ¬((resp rc).result_count = 0 ∧ rc = 0) := by
    rintro ⟨hz, rfl⟩
    exact hrc rfl hz
  simp only [fetchLoop]
  rw [if_neg (by simp [h200]), if_neg hcond]
  simp [hdata]

theorem fetchLoop_step_notoken (resp : Nat → Page) (sf : Bool) (ref ts : String)
    (rc : Nat) (params : QueryParams) (df : Option (List Record)) (fuel : Nat)
    (dr : List Record)
    (h200 : (resp rc).status = 200) (hrc : rc = 0 → (resp 0).result_count ≠ 0)
    (hdata : (resp rc).data = some dr) (htok : (resp rc).next_token = none) :
    fetchLoop resp sf ref ts rc params df (fuel + 1) =
      finishFetch sf ref ts params (some (df.getD [] ++ dr)) (rc + 1) := by
  have hcond : ¬((resp rc).result_count = 0 ∧ rc = 0) := by
    rintro ⟨hz, rfl⟩
    exact hrc rfl hz
  simp only [fetchLoop]
  rw [if_neg (by simp [h200]), if_neg hcond]
  simp only [hdata, htok]
  cases df <;> rfl

theorem fetchLoop_step_cont (resp : Nat → Page) (sf : Bool) (ref ts : String)
    (rc : Nat) (params : QueryParams) (df : Option (List Record)) (fuel : Nat)
    (dr : List Record) (tk : String)
    (h200 : (resp rc).status = 200) (hrc : rc = 0 → (resp 0).result_count ≠ 0)
    (hdata : (resp rc).data = some dr) (htok : (resp rc).next_token = some tk) :
    fetchLoop resp sf ref ts rc params df (fuel + 1) =
      fetchLoop resp sf ref ts (rc + 1) { params with pagination_token := some tk }
        (some (df.getD [] ++ dr)) fuel := by
  have hcond : ¬((resp rc).result_count = 0 ∧ rc = 0) := by
    rintro ⟨hz, rfl⟩
    exact hrc rfl hz
  simp only [fetchLoop]
  rw [if_neg (by simp [h200]), if_neg hcond]
  simp only [hdata, htok]
  cases df <;> rfl

theorem get_most_recent_tweets_account_eq_loop (resp : Nat → Page) (PARAMS : QueryParams)
    (sf : Bool) (ref ts : String)
    (hp : PARAMS.pagination_token = none) (hm : PARAMS.max_results = some 100) :
    get_most_recent_tweets_account resp PARAMS sf ref ts =
      fetchLoop resp sf ref ts 0 PARAMS none 32 := by
  unfold get_most_recent_tweets_account
  rw [if_neg (by simp [hp]), if_neg (by simp [hm])]

theorem pageSegment_snoc (d : Nat → List Record) :
    ∀ (j rc : Nat), pageSegment d rc (j + 1) = pageSegment d rc j ++ d (rc + j) := by
  intro j
  induction j with
  | zero => intro rc; simp [pageSegment]
  | succ j ih =>
      intro rc
      calc pageSegment d rc (j + 1 + 1)
          = d rc ++ pageSegment d (rc + 1) (j + 1) := rfl
        _ = d rc ++ (pageSegment d (rc + 1) j ++ d (rc + 1 + j)) := by rw [ih (rc + 1)]
        _ = (d rc ++ pageSegment d (rc + 1) j) ++ d (rc + 1 + j) := by
              rw [List.append_assoc]
        _ = pageSegment d rc (j + 1) ++ d (rc + (j + 1)) := by
              rw [show rc + 1 + j = rc + (j + 1) by omega]
              rfl

theorem finishFetch_requests (sf : Bool) (ref ts : String) (params : QueryParams)
    (df : Option (List Record)) (n : Nat) :
    (finishFetch sf ref ts params df n).requests = n := by
  cases df <;> rfl

theorem finishFetch_params (sf : Bool) (ref ts : String) (params : QueryParams)
    (df : Option (List Record)) (n : Nat) :
    (finishFetch sf ref ts params df n).params = params := by
  cases df <;> rfl

theorem fetchLoop_requests_le (resp : Nat → Page) (sf : Bool) (ref ts : String) :
    ∀ (fuel rc : Nat) (params : QueryParams) (df : Option (List Record)),
    (fetchLoop resp sf ref ts rc params df fuel).requests ≤ rc + fuel := by
  intro fuel
  induction fuel with
  | zero =>
      intro rc params df
      simp only [fetchLoop]
      rw [finishFetch_requests]
      omega
  | succ fuel ih =>
      intro rc params df
      by_cases h200 : (resp rc).status = 200
      · by_cases hempty : (resp rc).result_count = 0 ∧ rc = 0
        · obtain ⟨hz, rfl⟩ := hempty
          rw [fetchLoop_step_emptyFirst resp sf ref ts params df fuel h200 hz]
          show 1 ≤ 0 + (fuel + 1)
          omega
        · have hrc : rc = 0 → (resp 0).result_count ≠ 0 := by
            rintro rfl hz
            exact hempty ⟨hz, rfl⟩
          cases hdata : (resp rc).data with
          | none =>
              rw [fetchLoop_step_nodata resp sf ref ts rc params df fuel h200 hrc hdata,
                finishFetch_requests]
              omega
          | some dr =>
              cases htok : (resp rc).next_token with
              | none =>
                  rw [fetchLoop_step_notoken resp sf ref ts rc params df fuel dr h200 hrc
                      hdata htok, finishFetch_requests]
                  omega
              | some tk =>
                  rw [fetchLoop_step_cont resp sf ref ts rc params df fuel dr tk h200 hrc
                      hdata htok]
                  have := ih (rc + 1) { params with pagination_token := some tk }
                    (some (df.getD [] ++ dr))
                  omega
      · rw [fetchLoop_step_http resp sf ref ts rc params df fuel h200]
        show rc + 1 ≤ rc + (fuel + 1)
        omega

theorem fetchLoop_advance (resp : Nat → Page) (sf : Bool) (ref ts : String)
    (d : Nat → List Record) (t : Nat → String) :
    ∀ (j rc fuel : Nat) (params : QueryParams) (df : Option (List Record)),
    j ≤ fuel →
    (∀ i, i < j → (resp (rc + i)).status = 200 ∧ (resp (rc + i)).data = some (d (rc + i)) ∧
      (resp (rc + i)).next_token = some (t (rc + i))) →
    (rc = 0 → 0 < j → (resp 0).result_count ≠ 0) →
    fetchLoop resp sf ref ts rc params df fuel =
      fetchLoop resp sf ref ts (rc + j)
        (if j = 0 then params else { params with pagination_token := some (t (rc + j - 1)) })
        (if j = 0 then df else some (df.getD [] ++ pageSegment d rc j))
        (fuel - j) := by
  intro j
  induction j with
  | zero =>
      intro rc fuel params df _ _ _
      simp
  | succ j ih =>
      intro rc fuel params df hle h h0
      obtain ⟨fuel', rfl⟩ : ∃ fuel', fuel = fuel' + 1 := ⟨fuel - 1, by omega⟩
      obtain ⟨h200, hdata, htok⟩ := h 0 (Nat.succ_pos j)
      rw [Nat.add_zero] at h200 hdata htok
      rw [fetchLoop_step_cont resp sf ref ts rc params df fuel' (d rc) (t rc) h200
            (fun hrc => h0 hrc (Nat.succ_pos j)) hdata htok]
      rw [ih (rc + 1) fuel' _ _ (by omega)
            (fun i hi => by
              have := h (i + 1) (by omega)
              constructor
              · rw [show rc + 1 + i = rc + (i + 1) by omega]
                exact this.1
              constructor
              · rw [show rc + 1 + i = rc + (i + 1) by omega]
                exact this.2.1
              · rw [show rc + 1 + i = rc + (i + 1) by omega]
                exact this.2.2)
            (by omega)]
      rcases Nat.eq_zero_or_pos j with rfl | hj
      · simp [pageSegment]
      · rw [if_neg (by omega), if_neg (by omega), if_neg (by omega), if_neg (by omega)]
        have harith1 : rc + 1 + j = rc + (j + 1) := by omega
        have harith3 : fuel' - j = fuel' + 1 - (j + 1) := by omega
        rw [harith1, harith3]
        have hseg : (some (df.getD [] ++ d rc) : Option (List Record)).getD [] ++
            pageSegment d (rc + 1) j = df.getD [] ++ pageSegment d rc (j + 1) := by
          simp only [Option.getD_some]
          rw [pageSegment, List.append_assoc]
        rw [hseg]

theorem fetchLoop_token_mono (resp : Nat → Page) (sf : Bool) (ref ts : String) :
    ∀ (fuel rc : Nat) (params : QueryParams) (df : Option (List Record)),
    params.pagination_token.isSome →
    (fetchLoop resp sf ref ts rc params df fuel).params.pagination_token.isSome := by
  intro fuel
  induction fuel with
  | zero =>
      intro rc params df hp
      simp only [fetchLoop]
      rw [finishFetch_params]
      exact hp
  | succ fuel ih =>
      intro rc params df hp
      by_cases h200 : (resp rc).status = 200
      · by_cases hempty : (resp rc).result_count = 0 ∧ rc = 0
        · obtain ⟨hz, rfl⟩ := hempty
          rw [fetchLoop_step_emptyFirst resp sf ref ts params df fuel h200 hz]
          exact hp
        · have hrc : rc = 0 → (resp 0).result_count ≠ 0 := by
            rintro rfl hz
            exact hempty ⟨hz, rfl⟩
          cases hdata : (resp rc).data with
          | none =>
              rw [fetchLoop_step_nodata resp sf ref ts rc params df fuel h200 hrc hdata,
                finishFetch_params]
              exact hp
          | some dr =>
              cases htok : (resp rc).next_token with
              | none =>
                  rw [fetchLoop_step_notoken resp sf ref ts rc params df fuel dr h200 hrc
                      hdata htok, finishFetch_params]
                  exact hp
              | some tk =>
                  rw [fetchLoop_step_cont resp sf ref ts rc params df fuel dr tk h200 hrc
                      hdata htok]
                  exact ih (rc + 1) _ _ rfl
      · rw [fetchLoop_step_http resp sf ref ts rc params df fuel h200]
        exact hp

theorem fetchLoop_frame (resp : Nat → Page) (sf : Bool) (ref ts : String) :
    ∀ (fuel rc : Nat) (params : QueryParams) (df : Option (List Record)),
    (fetchLoop resp sf ref ts rc params df fuel).params.max_results = params.max_results ∧
    (fetchLoop resp sf ref ts rc params df fuel).params.fields = params.fields := by
  intro fuel
  induction fuel with
  | zero =>
      intro rc params df
      simp only [fetchLoop]
      rw [finishFetch_params]
      exact ⟨rfl, rfl⟩
  | succ fuel ih =>
      intro rc params df
      by_cases h200 : (resp rc).status = 200
      · by_cases hempty : (resp rc).result_count = 0 ∧ rc = 0
        · obtain ⟨hz, rfl⟩ := hempty
          rw [fetchLoop_step_emptyFirst resp sf ref ts params df fuel h200 hz]
          exact ⟨rfl, rfl⟩
        · have hrc : rc = 0 → (resp 0).result_count ≠ 0 := by
            rintro rfl hz
            exact hempty ⟨hz, rfl⟩
          cases hdata : (resp rc).data with
          | none =>
              rw [fetchLoop_step_nodata resp sf ref ts rc params df fuel h200 hrc hdata,
                finishFetch_params]
              exact ⟨rfl, rfl⟩
          | some dr =>
              cases htok : (resp rc).next_token with
              | none =>
                  rw [fetchLoop_step_notoken resp sf ref ts rc params df fuel dr h200 hrc
                      hdata htok, finishFetch_params]
                  exact ⟨rfl, rfl⟩
              | some tk =>
                  rw [fetchLoop_step_cont resp sf ref ts rc params df fuel dr tk h200 hrc
                      hdata htok]
                  exact ih (rc + 1) _ _
      · rw [fetchLoop_step_http resp sf ref ts rc params df fuel h200]
        exact ⟨rfl, rfl⟩

theorem fetchLoop_token_of_ok (resp : Nat → Page) (sf : Bool) (ref ts : String) :
    ∀ (fuel rc : Nat) (params : QueryParams) (df : Option (List Record)),
    (rc ≠ 0 → params.pagination_token.isSome) →
    (rc = 0 → df = none) →
    (rc = 0 → (resp 0).result_count ≠ 0) →
    (∃ rows, (fetchLoop resp sf ref ts rc params df fuel).result = .ok rows) →
    (∃ i, rc ≤ i ∧ i < (fetchLoop resp sf ref ts rc params df fuel).requests ∧
      (resp i).next_token.isSome) →
    (fetchLoop resp sf ref ts rc params df fuel).params.pagination_token.isSome := by
  intro fuel
  induction fuel with
  | zero =>
      intro rc params df _ _ _ _ hex
      obtain ⟨i, hi1, hi2, _⟩ := hex
      rw [fetchLoop, finishFetch_requests] at hi2
      omega
  | succ fuel _ =>
      intro rc params df hp hdf h0 hok hex
      by_cases h200 : (resp rc).status = 200
      · by_cases hempty : (resp rc).result_count = 0 ∧ rc = 0
        · obtain ⟨hz, rfl⟩ := hempty
          exact absurd hz (h0 rfl)
        · have hrc : rc = 0 → (resp 0).result_count ≠ 0 := h0
          cases hdata : (resp rc).data with
          | none =>
              rw [fetchLoop_step_nodata resp sf ref ts rc params df fuel h200 hrc hdata] at *
              rcases Nat.eq_zero_or_pos rc with rfl | hpos
              · rw [hdf rfl, finishFetch_none] at hok
                obtain ⟨rows, hrows⟩ := hok
                exact absurd hrows (by simp)
              · rw [finishFetch_params]
                exact hp (by omega)
          | some dr =>
              cases htok : (resp rc).next_token with
              | none =>
                  rw [fetchLoop_step_notoken resp sf ref ts rc params df fuel dr h200 hrc
                      hdata htok] at *
                  obtain ⟨i, hi1, hi2, hi3⟩ := hex
                  rw [finishFetch_requests] at hi2
                  have : i = rc := by omega
                  rw [this, htok] at hi3
                  exact absurd hi3 (by simp)
              | some tk =>
                  rw [fetchLoop_step_cont resp sf ref ts rc params df fuel dr tk h200 hrc
                      hdata htok] at *
                  exact fetchLoop_token_mono resp sf ref ts fuel (rc + 1) _ _ rfl
      · rw [fetchLoop_step_http resp sf ref ts rc params df fuel h200] at *
        obtain ⟨rows, hrows⟩ := hok
        exact absurd hrows (by simp)

theorem finishFetch_result_some (sf : Bool) (ref ts : String) (params : QueryParams)
    (rows : List Record) (n : Nat) :
    (finishFetch sf ref ts params (some rows) n).result = .ok rows := rfl

theorem finishFetch_files_some (sf : Bool) (ref ts : String) (params : QueryParams)
    (rows : List Record) (n : Nat) :
    (finishFetch sf ref ts params (some rows) n).files =
      (if sf then [FileOp.writeCsv ("data/" ++ ref ++ "_" ++ ts ++ ".csv") rows]
       else []) := rfl

/-! ### Claim theorems -/

/-- Claim C1: for every `queryParameters` mapping that either already contains
a `'pagination_token'` entry, or whose `'max_results'` entry is absent or not
equal to 100, `get_most_recent_tweets_account` fails immediately with a
configuration error (the branch of src/main.py lines 146-152) before issuing
any network request: zero requests are issued, no file is touched, and the
mapping is untouched. -/
theorem precondition_violation_fails_before_any_request
    (responses : Nat → Page) (PARAMS : QueryParams) (save_file : Bool)
    (file_reference timestamp : String)
    (h : PARAMS.pagination_token.isSome ∨ PARAMS.max_results ≠ some 100) :
    ((get_most_recent_tweets_account responses PARAMS save_file file_reference
        timestamp).result = .error .configPaginationToken ∨
      (get_most_recent_tweets_account responses PARAMS save_file file_reference
        timestamp).result = .error .configMaxResults) ∧
    (get_most_recent_tweets_account responses PARAMS save_file file_reference
      timestamp).requests = 0 ∧
    (get_most_recent_tweets_account responses PARAMS save_file file_reference
      timestamp).files = [] ∧
    (get_most_recent_tweets_account responses PARAMS save_file file_reference
      timestamp).params = PARAMS := by
  unfold get_most_recent_tweets_account
  by_cases hp : PARAMS.pagination_token.isSome
  · rw [if_pos hp]
    exact ⟨Or.inl rfl, rfl, rfl, rfl⟩
  · rw [if_neg hp]
    have hm : PARAMS.max_results ≠ some 100 := h.resolve_left hp
    rw [if_pos hm]
    exact ⟨Or.inr rfl, rfl, rfl, rfl⟩

theorem precondition_violation_fails_before_any_request_witness :
    ((⟨some "tok", some 100, []⟩ : QueryParams).pagination_token.isSome ∨
      (⟨some "tok", some 100, []⟩ : QueryParams).max_results ≠ some 100) ∧
    (((get_most_recent_tweets_account (fun _ => Page.mk 200 1 (some [1]) none)
        ⟨some "tok", some 100, []⟩ true "ACCT" "2021-11-01_12:00:00").result
          = .error .configPaginationToken ∨
      (get_most_recent_tweets_account (fun _ => Page.mk 200 1 (some [1]) none)
        ⟨some "tok", some 100, []⟩ true "ACCT" "2021-11-01_12:00:00").result
          = .error .configMaxResults) ∧
      (get_most_recent_tweets_account (fun _ => Page.mk 200 1 (some [1]) none)
        ⟨some "tok", some 100, []⟩ true "ACCT" "2021-11-01_12:00:00").requests = 0 ∧
      (get_most_recent_tweets_account (fun _ => Page.mk 200 1 (some [1]) none)
        ⟨some "tok", some 100, []⟩ true "ACCT" "2021-11-01_12:00:00").files = [] ∧
      (get_most_recent_tweets_account (fun _ => Page.mk 200 1 (some [1]) none)
        ⟨some "tok", some 100, []⟩ true "ACCT" "2021-11-01_12:00:00").params
          = ⟨some "tok", some 100, []⟩) :=
  ⟨Or.inl rfl,
    precondition_violation_fails_before_any_request (fun _ => Page.mk 200 1 (some [1]) none)
      ⟨some "tok", some 100, []⟩ true "ACCT" "2021-11-01_12:00:00" (Or.inl rfl)⟩

/-- Claim C2: the pagination loop issues at most 32 requests for every
sequence of API responses; and when the responses carry continuation tokens
throughout, the ceiling ends the loop after exactly 32 requests and the
accumulated rows are returned without an error. -/
theorem pagination_never_exceeds_32_requests
    (responses : Nat → Page) (PARAMS : QueryParams) (save_file : Bool)
    (file_reference timestamp : String) (d : Nat → List Record) (t : Nat → String) :
    (get_most_recent_tweets_account responses PARAMS save_file file_reference
      timestamp).requests ≤ 32 ∧
    (PARAMS.pagination_token = none → PARAMS.max_results = some 100 →
      (∀ i, i < 32 → (responses i).status = 200 ∧ (responses i).data = some (d i) ∧
        (responses i).next_token = some (t i)) →
      (responses 0).result_count ≠ 0 →
      (get_most_recent_tweets_account responses PARAMS save_file file_reference
        timestamp).requests = 32 ∧
      (get_most_recent_tweets_account responses PARAMS save_file file_reference
        timestamp).result = .ok (pageSegment d 0 32)) := by
  constructor
  · unfold get_most_recent_tweets_account
    by_cases hp : PARAMS.pagination_token.isSome
    · rw [if_pos hp]
      exact Nat.zero_le 32
    · rw [if_neg hp]
      by_cases hm : PARAMS.max_results ≠ some 100
      · rw [if_pos hm]
        exact Nat.zero_le 32
      · rw [if_neg hm]
        have := fetchLoop_requests_le responses save_file file_reference timestamp 32 0
          PARAMS none
        omega
  · intro hp hm hfull h0
    rw [get_most_recent_tweets_account_eq_loop responses PARAMS save_file file_reference
      timestamp hp hm]
    have hadv := fetchLoop_advance responses save_file file_reference timestamp d t 32 0 32
      PARAMS none (by omega) (fun i hi => by simpa using hfull i hi) (fun _ _ => h0)
    rw [if_neg (by omega), if_neg (by omega)] at hadv
    simp only [Nat.zero_add, Nat.sub_self, Option.getD_none, List.nil_append] at hadv
    rw [hadv]
    simp only [fetchLoop]
    rw [finishFetch_requests, finishFetch_result_some]
    exact ⟨rfl, rfl⟩

theorem pagination_never_exceeds_32_requests_witness :
    ((⟨none, some 100, []⟩ : QueryParams).pagination_token = none) ∧
    ((⟨none, some 100, []⟩ : QueryParams).max_results = some 100) ∧
    (∀ i, i < 32 → (Page.mk 200 1 (some [i]) (some "tok")).status = 200 ∧
      (Page.mk 200 1 (some [i]) (some "tok")).data = some [i] ∧
      (Page.mk 200 1 (some [i]) (some "tok")).next_token = some "tok") ∧
    (Page.mk 200 1 (some [0]) (some "tok")).result_count ≠ 0 ∧
    ((get_most_recent_tweets_account (fun i => Page.mk 200 1 (some [i]) (some "tok"))
        ⟨none, some 100, []⟩ true "ACCT" "2021-11-01_12:00:00").requests ≤ 32 ∧
     (get_most_recent_tweets_account (fun i => Page.mk 200 1 (some [i]) (some "tok"))
        ⟨none, some 100, []⟩ true "ACCT" "2021-11-01_12:00:00").requests = 32 ∧
     (get_most_recent_tweets_account (fun i => Page.mk 200 1 (some [i]) (some "tok"))
        ⟨none, some 100, []⟩ true "ACCT" "2021-11-01_12:00:00").result
       = .ok (pageSegment (fun i => [i]) 0 32)) :=
  ⟨rfl, rfl, fun _ _ => ⟨rfl, rfl, rfl⟩, by decide,
    (pagination_never_exceeds_32_requests (fun i => Page.mk 200 1 (some [i]) (some "tok"))
        ⟨none, some 100, []⟩ true "ACCT" "2021-11-01_12:00:00" (fun i => [i])
        (fun _ => "tok")).1,
    (pagination_never_exceeds_32_requests (fun i => Page.mk 200 1 (some [i]) (some "tok"))
        ⟨none, some 100, []⟩ true "ACCT" "2021-11-01_12:00:00" (fun i => [i])
        (fun _ => "tok")).2 rfl rfl (fun _ _ => ⟨rfl, rfl, rfl⟩) (by decide)⟩

/-- Claim C3: when valid parameters are given and the first page has
result-count 0, `get_most_recent_tweets_account` returns an empty result set
after exactly one request, and when persistence is requested it creates the
zero-byte sentinel `data/{reference}_2021_empty.csv` instead of a timestamped
data file. -/
theorem empty_first_page_returns_empty_after_one_request
    (responses : Nat → Page) (PARAMS : QueryParams) (save_file : Bool)
    (file_reference timestamp : String)
    (hp : PARAMS.pagination_token = none) (hm : PARAMS.max_results = some 100)
    (h200 : (responses 0).status = 200) (hrc : (responses 0).result_count = 0) :
    (get_most_recent_tweets_account responses PARAMS save_file file_reference
      timestamp).result = .ok [] ∧
    (get_most_recent_tweets_account responses PARAMS save_file file_reference
      timestamp).requests = 1 ∧
    (get_most_recent_tweets_account responses PARAMS save_file file_reference
      timestamp).files =
      (if save_file then
        [FileOp.touchEmpty ("data/" ++ file_reference ++ "_2021_empty.csv")]
       else []) := by
  rw [get_most_recent_tweets_account_eq_loop responses PARAMS save_file file_reference
    timestamp hp hm]
  rw [show (32 : Nat) = 31 + 1 from rfl]
  rw [fetchLoop_step_emptyFirst responses save_file file_reference timestamp PARAMS none 31
    h200 hrc]
  exact ⟨rfl, rfl, rfl⟩

theorem empty_first_page_returns_empty_after_one_request_witness :
    ((⟨none, some 100, []⟩ : QueryParams).pagination_token = none) ∧
    ((⟨none, some 100, []⟩ : QueryParams).max_results = some 100) ∧
    ((Page.mk 200 0 none (some "tok")).status = 200) ∧
    ((Page.mk 200 0 none (some "tok")).result_count = 0) ∧
    ((get_most_recent_tweets_account (fun _ => Page.mk 200 0 none (some "tok"))
        ⟨none, some 100, []⟩ true "ACCT" "2021-11-01_12:00:00").result = .ok [] ∧
     (get_most_recent_tweets_account (fun _ => Page.mk 200 0 none (some "tok"))
        ⟨none, some 100, []⟩ true "ACCT" "2021-11-01_12:00:00").requests = 1 ∧
     (get_most_recent_tweets_account (fun _ => Page.mk 200 0 none (some "tok"))
        ⟨none, some 100, []⟩ true "ACCT" "2021-11-01_12:00:00").files =
       (if true then [FileOp.touchEmpty ("data/" ++ "ACCT" ++ "_2021_empty.csv")]
        else [])) :=
  ⟨rfl, rfl, rfl, rfl,
    empty_first_page_returns_empty_after_one_request
      (fun _ => Page.mk 200 0 none (some "tok")) ⟨none, some 100, []⟩ true "ACCT"
      "2021-11-01_12:00:00" rfl rfl rfl rfl⟩

/-- Claim C5: when valid parameters are given, the first `k-1` pages each
carry a record list and a continuation token, page `k` carries a record list
but no continuation token, and the first page's result-count is non-zero,
`get_most_recent_tweets_account` issues exactly `k` requests (1 ≤ k ≤ 32) and
returns the rows of pages `1..k` in page order then within-page order, never
reordered. -/
theorem no_token_on_page_k_stops_after_k_requests
    (responses : Nat → Page) (PARAMS : QueryParams) (save_file : Bool)
    (file_reference timestamp : String) (d : Nat → List Record) (t : Nat → String)
    (k : Nat)
    (hp : PARAMS.pagination_token = none) (hm : PARAMS.max_results = some 100)
    (hk1 : 1 ≤ k) (hk32 : k ≤ 32)
    (hfull : ∀ i, i < k - 1 → (responses i).status = 200 ∧
      (responses i).data = some (d i) ∧ (responses i).next_token = some (t i))
    (h0 : (responses 0).result_count ≠ 0)
    (hlast200 : (responses (k - 1)).status = 200)
    (hlastdata : (responses (k - 1)).data = some (d (k - 1)))
    (hlasttok : (responses (k - 1)).next_token = none) :
    (get_most_recent_tweets_account responses PARAMS save_file file_reference
      timestamp).requests = k ∧
    (get_most_recent_tweets_account responses PARAMS save_file file_reference
      timestamp).result = .ok (pageSegment d 0 k) := by
  obtain ⟨j, rfl⟩ : ∃ j, k = j + 1 := ⟨k - 1, by omega⟩
  have hj : j + 1 - 1 = j := by omega
  rw [hj] at hfull hlast200 hlastdata hlasttok
  rw [get_most_recent_tweets_account_eq_loop responses PARAMS save_file file_reference
    timestamp hp hm]
  have hadv := fetchLoop_advance responses save_file file_reference timestamp d t j 0 32
    PARAMS none (by omega) (fun i hi => by simpa using hfull i hi) (fun _ _ => h0)
  simp only [Nat.zero_add] at hadv
  rw [hadv]
  obtain ⟨m, hmfuel⟩ : ∃ m, 32 - j = m + 1 := ⟨31 - j, by omega⟩
  rw [hmfuel]
  rw [fetchLoop_step_notoken responses save_file file_reference timestamp j _ _ m (d j)
    hlast200 (fun _ => h0) hlastdata hlasttok]
  rw [finishFetch_requests, finishFetch_result_some]
  refine ⟨rfl, ?_⟩
  rcases Nat.eq_zero_or_pos j with rfl | hjpos
  · rw [if_pos rfl]
    simp [pageSegment]
  · rw [if_neg (by omega)]
    simp only [Option.getD_some, Option.getD_none, List.nil_append]
    rw [pageSegment_snoc d j 0, Nat.zero_add]

theorem no_token_on_page_k_stops_after_k_requests_witness :
    ((⟨none, some 100, []⟩ : QueryParams).pagination_token = none) ∧
    ((⟨none, some 100, []⟩ : QueryParams).max_results = some 100) ∧
    (1 ≤ 2 ∧ 2 ≤ 32) ∧
    (∀ i, i < 2 - 1 →
      ((fun n => if n = 0 then Page.mk 200 1 (some [10]) (some "tok")
                 else Page.mk 200 1 (some [20, 21]) none) i).status = 200 ∧
      ((fun n => if n = 0 then Page.mk 200 1 (some [10]) (some "tok")
                 else Page.mk 200 1 (some [20, 21]) none) i).data
        = some ((fun n => if n = 0 then [10] else [20, 21]) i) ∧
      ((fun n => if n = 0 then Page.mk 200 1 (some [10]) (some "tok")
                 else Page.mk 200 1 (some [20, 21]) none) i).next_token
        = some ((fun _ => "tok") i)) ∧
    ((get_most_recent_tweets_account
        (fun n => if n = 0 then Page.mk 200 1 (some [10]) (some "tok")
                  else Page.mk 200 1 (some [20, 21]) none)
        ⟨none, some 100, []⟩ true "ACCT" "2021-11-01_12:00:00").requests = 2 ∧
     (get_most_recent_tweets_account
        (fun n => if n = 0 then Page.mk 200 1 (some [10]) (some "tok")
                  else Page.mk 200 1 (some [20, 21]) none)
        ⟨none, some 100, []⟩ true "ACCT" "2021-11-01_12:00:00").result
       = .ok (pageSegment (fun n => if n = 0 then [10] else [20, 21]) 0 2)) :=
  ⟨rfl, rfl, ⟨by omega, by omega⟩, fun i hi => by
      interval_cases i
      exact ⟨rfl, rfl, rfl⟩,
    no_token_on_page_k_stops_after_k_requests
      (fun n => if n = 0 then Page.mk 200 1 (some [10]) (some "tok")
                else Page.mk 200 1 (some [20, 21]) none)
      ⟨none, some 100, []⟩ true "ACCT" "2021-11-01_12:00:00"
      (fun n => if n = 0 then [10] else [20, 21]) (fun _ => "tok") 2 rfl rfl
      (by omega) (by omega)
      (fun i hi => by interval_cases i; exact ⟨rfl, rfl, rfl⟩)
      (by decide) rfl rfl rfl⟩

/-- Claim C4 counterexample: at `k = 1` the claim fails.  When the very first
page (status 200, non-zero result-count) has no `'data'` key, the loop stops,
but the local `df` was never assigned, so `df.to_csv(fn)` / `return df`
(src/main.py lines 222, 224) raise `UnboundLocalError` instead of returning
the empty ResultSet of pages `1..0`; nothing is persisted either. -/
theorem missing_data_on_first_page_crashes :
    (get_most_recent_tweets_account (fun _ => Page.mk 200 5 none none)
      ⟨none, some 100, []⟩ true "ACCT" "2021-11-01_12:00:00").result
        = .error .unboundLocalDf ∧
    (get_most_recent_tweets_account (fun _ => Page.mk 200 5 none none)
      ⟨none, some 100, []⟩ true "ACCT" "2021-11-01_12:00:00").result
        ≠ .ok [] ∧
    (get_most_recent_tweets_account (fun _ => Page.mk 200 5 none none)
      ⟨none, some 100, []⟩ true "ACCT" "2021-11-01_12:00:00").requests = 1 ∧
    (get_most_recent_tweets_account (fun _ => Page.mk 200 5 none none)
      ⟨none, some 100, []⟩ true "ACCT" "2021-11-01_12:00:00").files = [] :=
  ⟨rfl,
    fun h => Except.noConfusion
      (show (Except.error FetchError.unboundLocalDf : Except FetchError (List Record))
          = Except.ok [] from h),
    rfl, rfl⟩

/-- Claim C4 (amended to `k ≥ 2`): when valid parameters are given, pages
`1..k-1` each carry a record list and a continuation token, the first page's
result-count is non-zero, and page `k` (2 ≤ k ≤ 32) has no record list at
all, the loop stops at page `k` having issued `k` requests, the returned
ResultSet contains exactly the rows of pages `1..k-1` with nothing of page
`k` appended, and when persistence is requested that ResultSet is written to
the timestamped file. -/
theorem missing_data_on_page_k_keeps_previous_rows
    (responses : Nat → Page) (PARAMS : QueryParams) (save_file : Bool)
    (file_reference timestamp : String) (d : Nat → List Record) (t : Nat → String)
    (k : Nat)
    (hp : PARAMS.pagination_token = none) (hm : PARAMS.max_results = some 100)
    (hk2 : 2 ≤ k) (hk32 : k ≤ 32)
    (hfull : ∀ i, i < k - 1 → (responses i).status = 200 ∧
      (responses i).data = some (d i) ∧ (responses i).next_token = some (t i))
    (h0 : (responses 0).result_count ≠ 0)
    (hlast200 : (responses (k - 1)).status = 200)
    (hlastdata : (responses (k - 1)).data = none) :
    (get_most_recent_tweets_account responses PARAMS save_file file_reference
      timestamp).requests = k ∧
    (get_most_recent_tweets_account responses PARAMS save_file file_reference
      timestamp).result = .ok (pageSegment d 0 (k - 1)) ∧
    (get_most_recent_tweets_account responses PARAMS save_file file_reference
      timestamp).files =
      (if save_file then
        [FileOp.writeCsv ("data/" ++ file_reference ++ "_" ++ timestamp ++ ".csv")
          (pageSegment d 0 (k - 1))]
       else []) := by
  obtain ⟨j, rfl⟩ : ∃ j, k = j + 1 := ⟨k - 1, by omega⟩
  have hj : j + 1 - 1 = j := by omega
  rw [hj] at hfull hlast200 hlastdata ⊢
  rw [get_most_recent_tweets_account_eq_loop responses PARAMS save_file file_reference
    timestamp hp hm]
  have hadv := fetchLoop_advance responses save_file file_reference timestamp d t j 0 32
    PARAMS none (by omega) (fun i hi => by simpa using hfull i hi) (fun _ _ => h0)
  simp only [Nat.zero_add] at hadv
  rw [hadv]
  rw [if_neg (by omega), if_neg (by omega)]
  obtain ⟨m, hmfuel⟩ : ∃ m, 32 - j = m + 1 := ⟨31 - j, by omega⟩
  rw [hmfuel]
  rw [fetchLoop_step_nodata responses save_file file_reference timestamp j _ _ m
    hlast200 (fun _ => h0) hlastdata]
  rw [finishFetch_requests, finishFetch_result_some, finishFetch_files_some]
  simp

theorem missing_data_on_page_k_keeps_previous_rows_witness :
    ((⟨none, some 100, []⟩ : QueryParams).pagination_token = none) ∧
    ((⟨none, some 100, []⟩ : QueryParams).max_results = some 100) ∧
    (2 ≤ 2 ∧ 2 ≤ 32) ∧
    (∀ i, i < 2 - 1 →
      ((fun n => if n = 0 then Page.mk 200 1 (some [10, 11]) (some "tok")
                 else Page.mk 200 0 none none) i).status = 200 ∧
      ((fun n => if n = 0 then Page.mk 200 1 (some [10, 11]) (some "tok")
                 else Page.mk 200 0 none none) i).data
        = some ((fun _ => [10, 11]) i) ∧
      ((fun n => if n = 0 then Page.mk 200 1 (some [10, 11]) (some "tok")
                 else Page.mk 200 0 none none) i).next_token
        = some ((fun _ => "tok") i)) ∧
    ((get_most_recent_tweets_account
        (fun n => if n = 0 then Page.mk 200 1 (some [10, 11]) (some "tok")
                  else Page.mk 200 0 none none)
        ⟨none, some 100, []⟩ true "ACCT" "2021-11-01_12:00:00").requests = 2 ∧
     (get_most_recent_tweets_account
        (fun n => if n = 0 then Page.mk 200 1 (some [10, 11]) (some "tok")
                  else Page.mk 200 0 none none)
        ⟨none, some 100, []⟩ true "ACCT" "2021-11-01_12:00:00").result
       = .ok (pageSegment (fun _ => [10, 11]) 0 (2 - 1)) ∧
     (get_most_recent_tweets_account
        (fun n => if n = 0 then Page.mk 200 1 (some [10, 11]) (some "tok")
                  else Page.mk 200 0 none none)
        ⟨none, some 100, []⟩ true "ACCT" "2021-11-01_12:00:00").files =
       (if true then
         [FileOp.writeCsv ("data/" ++ "ACCT" ++ "_" ++ "2021-11-01_12:00:00" ++ ".csv")
           (pageSegment (fun _ => [10, 11]) 0 (2 - 1))]
        else [])) :=
  ⟨rfl, rfl, ⟨by omega, by omega⟩, fun i hi => by
      interval_cases i
      exact ⟨rfl, rfl, rfl⟩,
    missing_data_on_page_k_keeps_previous_rows
      (fun n => if n = 0 then Page.mk 200 1 (some [10, 11]) (some "tok")
                else Page.mk 200 0 none none)
      ⟨none, some 100, []⟩ true "ACCT" "2021-11-01_12:00:00"
      (fun _ => [10, 11]) (fun _ => "tok") 2 rfl rfl (by omega) (by omega)
      (fun i hi => by interval_cases i; exact ⟨rfl, rfl, rfl⟩)
      (by decide) rfl rfl⟩

/-- Claim C9 counterexample: a fetched page can carry a continuation token
and yet the `'pagination_token'` entry is absent from `PARAMS` after the
function returns.  When the first page has result-count 0 the function
returns the empty ResultSet at src/main.py line 184 before ever reaching the
token store at line 207, even though the page's meta carries a token. -/
theorem token_carrying_page_without_params_mutation :
    ((Page.mk 200 0 none (some "tok")).next_token).isSome = true ∧
    (get_most_recent_tweets_account (fun _ => Page.mk 200 0 none (some "tok"))
      ⟨none, some 100, []⟩ true "ACCT" "2021-11-01_12:00:00").result = .ok [] ∧
    (get_most_recent_tweets_account (fun _ => Page.mk 200 0 none (some "tok"))
      ⟨none, some 100, []⟩ true "ACCT" "2021-11-01_12:00:00").requests = 1 ∧
    (get_most_recent_tweets_account (fun _ => Page.mk 200 0 none (some "tok"))
      ⟨none, some 100, []⟩ true "ACCT" "2021-11-01_12:00:00").params.pagination_token
        = none :=
  ⟨rfl, rfl, rfl, rfl⟩

/-- Claim C9 (amended: the empty-first-page return excepted):
`get_most_recent_tweets_account` mutates the caller's `PARAMS` mapping in
place.  Whenever the call returns normally, the first page's result-count is
non-zero, and at least one fetched page carries a continuation token, the
`'pagination_token'` entry remains in `PARAMS` after the call, so a second
call on the same unmodified mapping fails the pre-call pagination-token
check with zero requests; entries other than `'pagination_token'` are left
unchanged. -/
theorem params_pagination_token_mutated_in_place
    (responses : Nat → Page) (PARAMS : QueryParams) (save_file : Bool)
    (file_reference timestamp : String) (rows : List Record)
    (hok : (get_most_recent_tweets_account responses PARAMS save_file file_reference
      timestamp).result = .ok rows)
    (h0 : (responses 0).result_count ≠ 0)
    (htok : ∃ i, i < (get_most_recent_tweets_account responses PARAMS save_file
      file_reference timestamp).requests ∧ (responses i).next_token.isSome) :
    (get_most_recent_tweets_account responses PARAMS save_file file_reference
      timestamp).params.pagination_token.isSome ∧
    (get_most_recent_tweets_account responses PARAMS save_file file_reference
      timestamp).params.max_results = PARAMS.max_results ∧
    (get_most_recent_tweets_account responses PARAMS save_file file_reference
      timestamp).params.fields = PARAMS.fields ∧
    (∀ (responses2 : Nat → Page) (sf2 : Bool) (ref2 ts2 : String),
      (get_most_recent_tweets_account responses2
        (get_most_recent_tweets_account responses PARAMS save_file file_reference
          timestamp).params sf2 ref2 ts2).result = .error .configPaginationToken ∧
      (get_most_recent_tweets_account responses2
        (get_most_recent_tweets_account responses PARAMS save_file file_reference
          timestamp).params sf2 ref2 ts2).requests = 0) := by
  have hp : PARAMS.pagination_token = none := by
    by_contra hne
    have hsome : PARAMS.pagination_token.isSome := by
      cases hcase : PARAMS.pagination_token with
      | none => exact absurd hcase hne
      | some x => rfl
    unfold get_most_recent_tweets_account at hok
    rw [if_pos hsome] at hok
    exact Except.noConfusion hok
  have hm : PARAMS.max_results = some 100 := by
    by_contra hne
    unfold get_most_recent_tweets_account at hok
    rw [if_neg (by simp [hp]), if_pos hne] at hok
    exact Except.noConfusion hok
  have heq := get_most_recent_tweets_account_eq_loop responses PARAMS save_file
    file_reference timestamp hp hm
  rw [heq] at hok htok ⊢
  have hisSome : (fetchLoop responses save_file file_reference timestamp 0 PARAMS
      none 32).params.pagination_token.isSome := by
    apply fetchLoop_token_of_ok responses save_file file_reference timestamp 32 0 PARAMS
      none (fun hc => absurd rfl hc) (fun _ => rfl) (fun _ => h0) ⟨rows, hok⟩
    obtain ⟨i, hi1, hi2⟩ := htok
    exact ⟨i, Nat.zero_le i, hi1, hi2⟩
  refine ⟨hisSome,
    (fetchLoop_frame responses save_file file_reference timestamp 32 0 PARAMS none).1,
    (fetchLoop_frame responses save_file file_reference timestamp 32 0 PARAMS none).2,
    fun responses2 sf2 ref2 ts2 => ?_⟩
  unfold get_most_recent_tweets_account
  rw [if_pos hisSome]
  exact ⟨rfl, rfl⟩

theorem params_pagination_token_mutated_in_place_witness :
    ((get_most_recent_tweets_account
        (fun n => if n = 0 then Page.mk 200 1 (some [0]) (some "tok")
                  else Page.mk 200 1 none none)
        ⟨none, some 100, [("expansions", "author_id")]⟩ false "ACCT"
        "2021-11-01_12:00:00").result = .ok [0]) ∧
    ((Page.mk 200 1 (some [0]) (some "tok")).result_count ≠ 0) ∧
    (∃ i, i < (get_most_recent_tweets_account
        (fun n => if n = 0 then Page.mk 200 1 (some [0]) (some "tok")
                  else Page.mk 200 1 none none)
        ⟨none, some 100, [("expansions", "author_id")]⟩ false "ACCT"
        "2021-11-01_12:00:00").requests ∧
      ((fun n => if n = 0 then Page.mk 200 1 (some [0]) (some "tok")
                 else Page.mk 200 1 none none) i).next_token.isSome) ∧
    ((get_most_recent_tweets_account
        (fun n => if n = 0 then Page.mk 200 1 (some [0]) (some "tok")
                  else Page.mk 200 1 none none)
        ⟨none, some 100, [("expansions", "author_id")]⟩ false "ACCT"
        "2021-11-01_12:00:00").params.pagination_token.isSome ∧
     (get_most_recent_tweets_account
        (fun n => if n = 0 then Page.mk 200 1 (some [0]) (some "tok")
                  else Page.mk 200 1 none none)
        ⟨none, some 100, [("expansions", "author_id")]⟩ false "ACCT"
        "2021-11-01_12:00:00").params.max_results
       = (⟨none, some 100, [("expansions", "author_id")]⟩ : QueryParams).max_results ∧
     (get_most_recent_tweets_account
        (fun n => if n = 0 then Page.mk 200 1 (some [0]) (some "tok")
                  else Page.mk 200 1 none none)
        ⟨none, some 100, [("expansions", "author_id")]⟩ false "ACCT"
        "2021-11-01_12:00:00").params.fields
       = (⟨none, some 100, [("expansions", "author_id")]⟩ : QueryParams).fields ∧
     (∀ (responses2 : Nat → Page) (sf2 : Bool) (ref2 ts2 : String),
       (get_most_recent_tweets_account responses2
         (get_most_recent_tweets_account
           (fun n => if n = 0 then Page.mk 200 1 (some [0]) (some "tok")
                     else Page.mk 200 1 none none)
           ⟨none, some 100, [("expansions", "author_id")]⟩ false "ACCT"
           "2021-11-01_12:00:00").params sf2 ref2 ts2).result
         = .error .configPaginationToken ∧
       (get_most_recent_tweets_account responses2
         (get_most_recent_tweets_account
           (fun n => if n = 0 then Page.mk 200 1 (some [0]) (some "tok")
                     else Page.mk 200 1 none none)
           ⟨none, some 100, [("expansions", "author_id")]⟩ false "ACCT"
           "2021-11-01_12:00:00").params sf2 ref2 ts2).requests = 0)) :=
  ⟨rfl, by decide, ⟨0, by decide, rfl⟩,
    params_pagination_token_mutated_in_place
      (fun n => if n = 0 then Page.mk 200 1 (some [0]) (some "tok")
                else Page.mk 200 1 none none)
      ⟨none, some 100, [("expansions", "author_id")]⟩ false "ACCT"
      "2021-11-01_12:00:00" [0] rfl (by decide) ⟨0, by decide, rfl⟩⟩

/-- Claim C6 counterexample: the empty string consists (vacuously) of
letters, digits and underscores only, yet `'@' + ''` and `''` do not behave
identically: the former strips the `'@'`, passes validation (the pattern
accepts zero characters) and issues the lookup, while the latter raises
`IndexError` at `user_name[0]` (src/main.py line 69). -/
theorem leading_at_sign_differs_on_empty_handle :
    look_up_twitter_acount_id (fun u => LookupResponse.mk 200 u) ("@" ++ "") = .ok "" ∧
    look_up_twitter_acount_id (fun u => LookupResponse.mk 200 u) "" = .error .indexError ∧
    look_up_twitter_acount_id (fun u => LookupResponse.mk 200 u) ("@" ++ "") ≠
      look_up_twitter_acount_id (fun u => LookupResponse.mk 200 u) "" :=
  ⟨rfl, rfl, fun hEq => Except.noConfusion
    (show (Except.ok "" : Except LookupError String) = .error .indexError from hEq)⟩

/-- Claim C6 (amended to non-empty handles): for every non-empty handle `h`
consisting only of letters, digits and underscores, `look_up_twitter_acount_id`
behaves identically on `'@' + h` and on `h`: the leading `'@'` is stripped
and has no effect, so the same lookup request is issued against the same
environment and the same account identifier is returned. -/
theorem leading_at_sign_has_no_effect
    (respond : String → LookupResponse) (h : String)
    (hne : h ≠ "") (hw : ∀ c ∈ h.data, isWordChar c) :
    look_up_twitter_acount_id respond ("@" ++ h) =
      look_up_twitter_acount_id respond h := by
  obtain ⟨l, rfl⟩ : ∃ l, h = String.mk l := ⟨h.data, by cases h; rfl⟩
  cases l with
  | nil => exact absurd rfl hne
  | cons c rest =>
    have hc : c ≠ '@' := by
      have hcw : isWordChar c := hw c (List.mem_cons_self c rest)
      intro hEq
      rw [hEq] at hcw
      exact absurd hcw (by decide)
    show look_up_core respond
        (if '@' = '@' then String.mk (c :: rest) else String.mk ('@' :: c :: rest)) =
      look_up_core respond (if c = '@' then String.mk rest else String.mk (c :: rest))
    rw [if_pos rfl, if_neg hc]

theorem leading_at_sign_has_no_effect_witness :
    ("foo_1" : String) ≠ "" ∧ (∀ c ∈ ("foo_1" : String).data, isWordChar c) ∧
    look_up_twitter_acount_id (fun _ => LookupResponse.mk 200 "12345") ("@" ++ "foo_1") =
      look_up_twitter_acount_id (fun _ => LookupResponse.mk 200 "12345") "foo_1" :=
  ⟨by decide, by decide,
    leading_at_sign_has_no_effect (fun _ => LookupResponse.mk 200 "12345") "foo_1"
      (by decide) (by decide)⟩

/-- Claim C7: the batch driver extracts from each existing output file name
the reference portion up to the fixed date-marker substring `'_2021'`
(src/main.py line 318) and excludes every handle already present in that set
as well as every empty handle string, so a handle whose reference already
names an output file is not processed again. -/
theorem already_downloaded_handles_are_skipped
    (links files : List String) (h : String)
    (hex : ∃ f ∈ files, referenceOf f = h) :
    h ∉ batchUsernames links files ∧ "" ∉ batchUsernames links files := by
  constructor
  · intro hmem
    simp only [batchUsernames, downloadedUsernames, List.mem_filter,
      decide_eq_true_eq] at hmem
    obtain ⟨f, hf, href⟩ := hex
    apply hmem.2.1
    rw [← href]
    exact List.mem_map_of_mem referenceOf hf
  · intro hmem
    simp only [batchUsernames, downloadedUsernames, List.mem_filter,
      decide_eq_true_eq] at hmem
    exact hmem.2.2 rfl

theorem already_downloaded_handles_are_skipped_witness :
    (∃ f ∈ ["data/foo_2021-11-05_10:00:00.csv"], referenceOf f = "foo") ∧
    ("foo" ∉ batchUsernames ["https://twitter.com/foo", "https://twitter.com/bar"]
        ["data/foo_2021-11-05_10:00:00.csv"] ∧
     "" ∉ batchUsernames ["https://twitter.com/foo", "https://twitter.com/bar"]
        ["data/foo_2021-11-05_10:00:00.csv"]) :=
  ⟨⟨"data/foo_2021-11-05_10:00:00.csv", by decide, by decide⟩,
    already_downloaded_handles_are_skipped
      ["https://twitter.com/foo", "https://twitter.com/bar"]
      ["data/foo_2021-11-05_10:00:00.csv"] "foo"
      ⟨"data/foo_2021-11-05_10:00:00.csv", by decide, by decide⟩⟩

/-- Claim C8: for the empty-string handle, `look_up_twitter_acount_id` hits
the indexing error at `user_name[0]` (src/main.py line 69) before the
validation regex of line 74 is ever applied, and the empty string itself
satisfies that regex (it accepts zero characters), so no validation error is
ever produced for it. -/
theorem empty_handle_raises_index_error_not_validation
    (respond : String → LookupResponse) :
    look_up_twitter_acount_id respond "" = .error .indexError ∧
    validUserName "" = true :=
  ⟨rfl, rfl⟩

theorem empty_handle_raises_index_error_not_validation_witness :
    look_up_twitter_acount_id (fun _ => LookupResponse.mk 200 "1") ""
      = .error .indexError ∧
    validUserName "" = true :=
  empty_handle_raises_index_error_not_validation (fun _ => LookupResponse.mk 200 "1")

/-- Claim C10: every `raise` statement in src/main.py names the single
identifier `ApiError` — for configuration-style violations and non-200 HTTP
statuses alike — and that name is neither defined at module level nor a
Python built-in, so on every error path the raised exception is a
name-resolution failure (`NameError`) rather than a distinct Configuration
or Api error value. -/
theorem every_raise_names_undefined_apierror :
    ∀ s ∈ raiseSites, s.exceptionName = "ApiError" ∧
      resolveRaise s.exceptionName = .nameResolutionFailure := by
  intro s hs
  simp only [raiseSites, List.mem_cons, List.not_mem_nil, or_false] at hs
  rcases hs with rfl | rfl | rfl | rfl | rfl <;> exact ⟨rfl, by decide⟩

theorem every_raise_names_undefined_apierror_witness :
    (RaiseSite.mk "get_most_recent_tweets_account" 147 "ApiError") ∈ raiseSites ∧
    ((RaiseSite.mk "get_most_recent_tweets_account" 147 "ApiError").exceptionName
        = "ApiError" ∧
      resolveRaise
        (RaiseSite.mk "get_most_recent_tweets_account" 147 "ApiError").exceptionName
        = .nameResolutionFailure) :=
  ⟨by decide, every_raise_names_undefined_apierror _ (by decide)⟩
